import Mathlib

/-!
Verification development for the `mcp-code-reviewer` checklist execution
pipeline (Python sources under `src/python/mcp-code-reviewer/`).

Shallow embedding notes:
* Python dicts that serve as records (`Check`, categories, checklists,
  validation results, progress dicts) become Lean structures.  An optional
  dict key becomes an `Option` field: `none` means the key is absent,
  mirroring `'patterns' in check` / `check.get('patterns', [])`.
* The filesystem is abstracted as a `Project`: `rglobP` models
  `Path.rglob` (a pattern string yields the matching files in traversal
  order) and `existsAt` models `(project_path / name).exists()`.
  Reading a file (`Path.read_text`) is modelled by the `content` field of
  `FSFile`: `Except.ok` is the decoded text, `Except.error` the message
  of the exception raised by an unreadable file.
* The regex engine (`re.compile` + `search` per line) is abstracted as a
  total `Matcher : String → String → Bool` taking the pattern source and
  one physical line; compilation errors are out of scope.
* `datetime.now()` is modelled by explicit time arguments (`Nat`
  timestamps); `round(x, 1)` on the percentage is modelled on `ℚ`.
-/

/-- `ValidationResult` from `validators/base_validator.py`, with the same
constructor defaults (`file_path=""`, `line_number=0`, `severity="info"`). -/
structure ValidationResult where
  check_id : String
  passed : Bool
  message : String := ""
  file_path : String := ""
  line_number : Nat := 0
  severity : String := "info"
  deriving Repr, DecidableEq

/-- One check dict of a checklist.  `none` in an `Option` field means the
key is absent from the dict.  `technology` is the tag injected by
`ChecklistEngine._execute_check` (`check['technology'] = technology`). -/
structure Check where
  id : String
  description : String
  severity : Option String := none
  patterns : Option (List String) := none
  files : Option (List String) := none
  technology : Option String := none
  deriving Repr, DecidableEq

/-- A category dict: `items` is `none` when the `'items'` key is missing
(in Python, `category['items']` then raises `KeyError`). -/
structure Category where
  name : String
  items : Option (List Check)
  deriving Repr

/-- The loaded checklist; the engine only reads `checklist['categories']`. -/
structure Checklist where
  categories : List Category
  deriving Repr

/-- One file as seen by the validators: its path relative to the project
root, its `Path.parts` components, and the outcome of `read_text`. -/
structure FSFile where
  relPath : String
  parts : List String
  content : Except String String
  deriving Repr

/-- The project tree, abstracted as the two filesystem queries the
validators perform. -/
structure Project where
  rglobP : String → List FSFile
  existsAt : String → Bool

/-- Abstraction of `re.compile(p, IGNORECASE | MULTILINE).search(line)`:
`m pattern line` is true iff the pattern matches somewhere in the line. -/
def Matcher : Type := String → String → Bool

/-- The `skip_dirs` set shared by `BaseValidator.get_files_to_check` and
`FileValidator._check_pattern_files`. -/
def skipDirs : List String :=
  ["node_modules", "venv", ".venv", "__pycache__", "dist", "build", ".git", "coverage"]

/-- `not any(skip_dir in f.parts for skip_dir in skip_dirs)`. -/
def keepFile (f : FSFile) : Bool :=
  !(skipDirs.any fun d => f.parts.contains d)

/-- `BaseValidator.get_files_to_check`: collect `rglob f"*{ext}"` for each
extension, then drop files under conventionally ignored directories. -/
def getFilesToCheck (project : Project) (extensions : List String) : List FSFile :=
  let files := extensions.flatMap fun ext => project.rglobP ("*" ++ ext)
  files.filter keepFile

/-- `PatternValidator._get_extensions`: the `ext_map` lookup with default
`['.py']`. -/
def getExtensions (technology : String) : List String :=
  if technology = "python" then [".py"]
  else if technology = "javascript" then [".js", ".jsx"]
  else if technology = "typescript" then [".ts", ".tsx"]
  else if technology = "java" then [".java"]
  else if technology = "go" then [".go"]
  else if technology = "rust" then [".rs"]
  else [".py"]

/-- Split a character list at every occurrence of `c`; the list analogue
of Python's `str.split` with a one-character separator. -/
def splitOnChar (c : Char) : List Char → List (List Char)
  | [] => [[]]
  | x :: xs =>
      let r := splitOnChar c xs
      if x = c then [] :: r
      else
        match r with
        | [] => [[x]]
        | h :: t => (x :: h) :: t

/-- `content.split('\n')`: the physical lines of the decoded text
(structurally recursive so that concrete instances evaluate). -/
def splitLines (s : String) : List String :=
  (splitOnChar (Char.ofNat 10) s.data).map fun cs => String.mk cs

/-- The per-file body of `PatternValidator.validate`'s `for file_path in
files` loop: on a successful read, one failing result per pattern per
1-based line where the pattern matches; on a failed read, the single
`severity='error'` result built in the `except` clause. -/
def scanFile (m : Matcher) (check : Check) (patterns : List String) (f : FSFile) :
    List ValidationResult :=
  match f.content with
  | Except.ok content =>
      let lines := splitLines content
      patterns.flatMap fun pat =>
        lines.enum.flatMap fun pr =>
          if m pat pr.2 then
            [{ check_id := check.id
               passed := false
               message := "Pattern match: " ++ check.description
               file_path := f.relPath
               line_number := pr.1 + 1
               severity := check.severity.getD "info" }]
          else []
  | Except.error e =>
      [{ check_id := check.id
         passed := false
         message := "Error reading file: " ++ e
         file_path := f.relPath
         severity := "error" }]

/-- `PatternValidator.validate`. -/
def patternValidate (m : Matcher) (project : Project) (check : Check) :
    List ValidationResult :=
  let patterns := check.patterns.getD []
  if patterns.isEmpty then
    [{ check_id := check.id, passed := true, message := "No patterns defined" }]
  else
    let extensions := getExtensions (check.technology.getD "python")
    let files := getFilesToCheck project extensions
    if files.isEmpty then
      [{ check_id := check.id, passed := true, message := "No files found to check" }]
    else
      let results := files.flatMap (scanFile m check patterns)
      if results.isEmpty then
        [{ check_id := check.id, passed := true, message := check.description }]
      else results

/-- `FileValidator._check_pattern_files`: first glob pattern (in order)
with a non-empty filtered match set wins; its match count appears in the
passing message. -/
def checkPatternFiles (project : Project) (check : Check) (patterns : List String) :
    List ValidationResult :=
  let firstMatch := patterns.findSome? fun pat =>
    let matching := (project.rglobP pat).filter keepFile
    if matching.isEmpty then none else some matching
  match firstMatch with
  | some matching =>
      [{ check_id := check.id
         passed := true
         message := check.description ++ " - Found " ++ toString matching.length ++ " file(s)" }]
  | none =>
      [{ check_id := check.id
         passed := false
         message := "No files found matching patterns: " ++ String.intercalate ", " patterns
         severity := check.severity.getD "info" }]

/-- `FileValidator.validate`. -/
def fileValidate (project : Project) (check : Check) : List ValidationResult :=
  let filesToCheck := check.files.getD []
  if filesToCheck.isEmpty then
    let patterns := check.patterns.getD []
    if !patterns.isEmpty then
      checkPatternFiles project check patterns
    else
      [{ check_id := check.id, passed := true, message := "No files specified" }]
  else
    let found := filesToCheck.any project.existsAt
    if found then
      [{ check_id := check.id, passed := true, message := check.description }]
    else
      [{ check_id := check.id
         passed := false
         message := "Missing required files: " ++ String.intercalate ", " filesToCheck
         severity := check.severity.getD "info" }]

/-- `ChecklistEngine._execute_check`: inject the technology tag and pick a
validator by key presence (`'patterns' in check`, then `'files' in check`,
with `FileValidator` as the default branch). -/
def executeCheck (m : Matcher) (project : Project) (technology : String) (check : Check) :
    List ValidationResult :=
  let check := { check with technology := some technology }
  if check.patterns.isSome then
    patternValidate m project check
  else if check.files.isSome then
    fileValidate project check
  else
    fileValidate project check

/-- The `current_check` dict set by `ProgressTracker.update_check`. -/
structure CurrentCheck where
  id : String
  description : String
  deriving Repr, DecidableEq

/-- The failure dict appended by `ChecklistEngine.review_code` via
`ProgressTracker.record_fail`. -/
structure FailureInfo where
  check_id : String
  category : String
  message : String
  file_path : String
  line_number : Nat
  severity : String
  deriving Repr, DecidableEq

/-- The mutable fields of `ProgressTracker`; timestamps are abstract `Nat`
instants supplied in place of `datetime.now()`. -/
structure TrackerState where
  total_checks : Nat
  passed : Nat
  failed : Nat
  skipped : Nat
  in_progress : Nat
  current_check : Option CurrentCheck
  failures : List FailureInfo
  start_time : Option Nat
  end_time : Option Nat
  deriving Repr, DecidableEq

/-- `ProgressTracker.__init__`. -/
def initTracker : TrackerState :=
  { total_checks := 0, passed := 0, failed := 0, skipped := 0, in_progress := 0
    current_check := none, failures := [], start_time := none, end_time := none }

/-- `ProgressTracker.start`: sets the total and start timestamp and zeroes
the counters and failures.  Note that it assigns neither `current_check`
nor `end_time`. -/
def startT (t : Nat) (total : Nat) (s : TrackerState) : TrackerState :=
  { s with total_checks := total, start_time := some t
           passed := 0, failed := 0, skipped := 0, in_progress := 0, failures := [] }

/-- `ProgressTracker.update_check`. -/
def updateCheck (id description : String) (s : TrackerState) : TrackerState :=
  { s with current_check := some { id := id, description := description }, in_progress := 1 }

/-- `ProgressTracker.record_pass`. -/
def recordPass (s : TrackerState) : TrackerState :=
  { s with passed := s.passed + 1, in_progress := 0 }

/-- `ProgressTracker.record_fail`. -/
def recordFail (info : FailureInfo) (s : TrackerState) : TrackerState :=
  { s with failed := s.failed + 1, in_progress := 0, failures := s.failures ++ [info] }

/-- `ProgressTracker.record_skip`. -/
def recordSkip (s : TrackerState) : TrackerState :=
  { s with skipped := s.skipped + 1, in_progress := 0 }

/-- `ProgressTracker.complete`. -/
def completeT (t : Nat) (s : TrackerState) : TrackerState :=
  { s with end_time := some t, in_progress := 0 }

/-- The dict returned by `ProgressTracker.get_progress`. -/
structure Progress where
  total : Nat
  completed : Nat
  passed : Nat
  failed : Nat
  skipped : Nat
  percentage : ℚ
  current_check : Option CurrentCheck
  in_progress : Bool
  deriving Repr, DecidableEq

/-- `round(x, 1)` on the percentage, modelled on `ℚ` (half rounds up,
standing in for Python float rounding; no claim depends on ties). -/
def roundTo1 (q : ℚ) : ℚ := (round (q * 10) : ℤ) / 10

/-- `ProgressTracker.get_progress`: a pure read of the state. -/
def getProgress (s : TrackerState) : Progress :=
  let completed := s.passed + s.failed + s.skipped
  let percentage : ℚ :=
    if s.total_checks > 0 then (completed : ℚ) / (s.total_checks : ℚ) * 100 else 0
  { total := s.total_checks
    completed := completed
    passed := s.passed
    failed := s.failed
    skipped := s.skipped
    percentage := roundTo1 percentage
    current_check := s.current_check
    in_progress := s.in_progress > 0 }

/-- `get_progress` as a method call on the tracker object: it performs no
assignment, so the returned state is the input state. -/
def getProgressM (s : TrackerState) : Progress × TrackerState :=
  (getProgress s, s)

/-- The dict returned by `ProgressTracker.get_summary`. -/
structure Summary where
  total : Nat
  completed : Nat
  passed : Nat
  failed : Nat
  skipped : Nat
  percentage : ℚ
  current_check : Option CurrentCheck
  in_progress : Bool
  failures : List FailureInfo
  duration_seconds : Option Int
  status : String
  deriving Repr, DecidableEq

/-- `ProgressTracker.get_summary`. -/
def getSummary (s : TrackerState) : Summary :=
  let p := getProgress s
  { total := p.total, completed := p.completed, passed := p.passed, failed := p.failed
    skipped := p.skipped, percentage := p.percentage, current_check := p.current_check
    in_progress := p.in_progress
    failures := s.failures
    duration_seconds :=
      match s.start_time, s.end_time with
      | some a, some b => some ((b : Int) - (a : Int))
      | _, _ => none
    status := if s.end_time.isSome then "completed" else "in_progress" }

/-- Error taxonomy of the engine, per the spec's names.  A category dict
without an `'items'` key makes `category['items']` raise `KeyError` inside
the `total_checks` sum; the caller surfaces it as a structured error — the
spec's `MalformedChecklist`. -/
inductive ReviewError where
  | malformedChecklist (categoryName : String)
  deriving Repr, DecidableEq

/-- `sum(len(category['items']) for category in checklist['categories'])`:
the generator is consumed left to right and raises on the first category
without items. -/
def countTotal : List Category → Except ReviewError Nat
  | [] => Except.ok 0
  | c :: rest =>
      match c.items with
      | none => Except.error (ReviewError.malformedChecklist c.name)
      | some items => (countTotal rest).map fun n => items.length + n

/-- The body of `review_code`'s inner `for check in category['items']`
loop: mark the check current, emit a pre-snapshot to the callback list,
run the validators, record one pass for an all-passing result list or one
`record_fail` per failing result, then emit a post-snapshot. -/
def processCheck (m : Matcher) (project : Project) (technology : String)
    (categoryName : String) (check : Check)
    (st : List Progress × TrackerState) : List Progress × TrackerState :=
  let s := updateCheck check.id check.description st.2
  let snaps := st.1 ++ [getProgress s]
  let results := executeCheck m project technology check
  let passed := results.all fun r => r.passed
  let s :=
    if passed then recordPass s
    else
      results.foldl
        (fun s r =>
          if !r.passed then
            recordFail
              { check_id := check.id, category := categoryName, message := r.message
                file_path := r.file_path, line_number := r.line_number
                severity := r.severity } s
          else s)
        s
  (snaps ++ [getProgress s], s)

/-- The nested category/item loops of `review_code`. -/
def runChecks (m : Matcher) (project : Project) (technology : String)
    (categories : List Category) (st : List Progress × TrackerState) :
    List Progress × TrackerState :=
  categories.foldl
    (fun acc category =>
      (category.items.getD []).foldl
        (fun acc2 check => processCheck m project technology category.name check acc2)
        acc)
    st

/-- `ChecklistEngine.review_code`, from the point where the checklist is
already loaded.  `t0`/`t1` stand for the `datetime.now()` calls in `start`
and `complete`; the returned list collects the snapshots passed to the
progress callback.  (The engine's local `all_results` list is dead after
the loop and is not modelled.) -/
def reviewCode (m : Matcher) (project : Project) (t0 t1 : Nat) (s0 : TrackerState)
    (checklist : Checklist) (technology : String) :
    Except ReviewError (List Progress × Summary × TrackerState) :=
  match countTotal checklist.categories with
  | Except.error e => Except.error e
  | Except.ok total =>
      let s1 := startT t0 total s0
      let res := runChecks m project technology checklist.categories ([], s1)
      let s3 := completeT t1 res.2
      Except.ok (res.1, getSummary s3, s3)

/-! ## Theorems -/

/-- Helper: a bind of singleton-or-empty lists is a filtered map. -/
theorem flatMap_if_eq_filter_map {α β : Type} (l : List α) (p : α → Bool) (g : α → β) :
    (l.flatMap fun a => if p a then [g a] else []) = (l.filter p).map g := by
  induction l with
  | nil => rfl
  | cons a t ih =>
      cases h : p a <;> simp [List.flatMap_cons, List.filter_cons, h, ih]

/-- C2: `_execute_check` selects the strategy by the check's shape: a
declared `patterns` key routes to `PatternValidator`, and every other
check — with a `files` key or with neither key — routes to
`FileValidator`, always after tagging the check with the technology. -/
theorem executeCheck_dispatch (m : Matcher) (project : Project) (tech : String)
    (check : Check) :
    executeCheck m project tech check =
      (if check.patterns.isSome then
        patternValidate m project { check with technology := some tech }
      else
        fileValidate project { check with technology := some tech }) := by
  cases hp : check.patterns <;> cases hf : check.files <;>
    simp [executeCheck, hp, hf]

/-- C9: `get_progress` is a pure read: as a method call it leaves the
tracker state unchanged, and a second call on the resulting state returns
the identical snapshot. -/
theorem getProgress_pure_read (s : TrackerState) :
    (getProgressM s).2 = s ∧
      (getProgressM (getProgressM s).2).1 = (getProgressM s).1 :=
  ⟨rfl, rfl⟩

/-- C8 counterexample state: a tracker that has already completed a
review (`end_time` recorded). -/
def completedPrevState : TrackerState :=
  { total_checks := 2, passed := 1, failed := 1, skipped := 0, in_progress := 0
    current_check := some { id := "old", description := "old check" }
    failures := [], start_time := some 0, end_time := some 5 }

/-- C8 counterexample: after a completed review, `start` does not clear
`end_time`, so an immediately following `get_summary` does NOT report
status `in_progress` — refuting the claim for that prior state. -/
theorem start_then_summary_not_in_progress :
    (getSummary (startT 10 3 completedPrevState)).status ≠ "in_progress" := by
  decide

/-- C8 (amended): `start(total)` zeroes the pass/fail/skip counters,
clears the failures, records the fresh start timestamp and sets the
total, but leaves `current_check` and `end_time` untouched; hence the
status an immediate `get_summary` reports is `in_progress` exactly when
no end timestamp was previously recorded, and `completed` for a tracker
that had already finished a review. -/
theorem start_resets_counters_not_end_time (t total : Nat) (s : TrackerState) :
    (startT t total s).passed = 0 ∧
    (startT t total s).failed = 0 ∧
    (startT t total s).skipped = 0 ∧
    (startT t total s).failures = [] ∧
    (startT t total s).start_time = some t ∧
    (startT t total s).total_checks = total ∧
    (startT t total s).end_time = s.end_time ∧
    (startT t total s).current_check = s.current_check ∧
    (getSummary (startT t total s)).status =
      (if s.end_time.isSome then "completed" else "in_progress") :=
  ⟨rfl, rfl, rfl, rfl, rfl, rfl, rfl, rfl, rfl⟩

/-- C4: with target filenames declared, `FileValidator.validate` returns a
single passing result when at least one named file exists directly under
the project root, and otherwise a single failing result whose message
lists all of the named files, at the check's declared severity (default
`info`). -/
theorem fileValidate_existence (project : Project) (check : Check)
    (fl : List String) (hf : check.files = some fl) (hne : fl ≠ []) :
    fileValidate project check =
      (if fl.any project.existsAt then
        [{ check_id := check.id, passed := true, message := check.description }]
      else
        [{ check_id := check.id, passed := false
           message := "Missing required files: " ++ String.intercalate ", " fl
           severity := check.severity.getD "info" }]) := by
  have h1 : fl.isEmpty = false := by
    cases fl with
    | nil => exact absurd rfl hne
    | cons a l => rfl
  simp only [fileValidate, hf, Option.getD_some, h1, Bool.false_eq_true, if_false]

/-- C4 witness data: a project without `README.md`. -/
def emptyProject : Project := { rglobP := fun _ => [], existsAt := fun _ => false }

/-- C4 witness check. -/
def readmeCheck : Check :=
  { id := "readme-check", description := "README exists", files := some ["README.md"] }

/-- C4 witness: concrete failing instance, message lists `README.md`. -/
theorem fileValidate_existence_witness :
    fileValidate emptyProject readmeCheck =
      [{ check_id := "readme-check", passed := false
         message := "Missing required files: README.md", severity := "info" }] := by
  have h := fileValidate_existence emptyProject readmeCheck ["README.md"] rfl
    (by simp)
  rw [h]
  rfl

/-- C7: if some category of the checklist lacks an items list (all earlier
categories being well-formed, so it is the first offender Python's sum
reaches), `review_code` aborts with the structured `MalformedChecklist`
error before executing any check: no snapshot, summary or tracker state
is produced. -/
theorem malformed_category_aborts_review (m : Matcher) (project : Project)
    (t0 t1 : Nat) (s0 : TrackerState) (tech : String)
    (pre post : List Category) (c : Category)
    (hpre : ∀ x ∈ pre, x.items.isSome = true) (hc : c.items = none) :
    reviewCode m project t0 t1 s0 { categories := pre ++ c :: post } tech =
      Except.error (ReviewError.malformedChecklist c.name) := by
  have hcount : countTotal (pre ++ c :: post) =
      Except.error (ReviewError.malformedChecklist c.name) := by
    induction pre with
    | nil => simp [countTotal, hc]
    | cons a l ih =>
        have ha : a.items.isSome = true := hpre a (List.mem_cons_self a l)
        obtain ⟨items, hi⟩ := Option.isSome_iff_exists.mp ha
        have ih2 := ih fun x hx => hpre x (List.mem_cons_of_mem a hx)
        simp [countTotal, hi, ih2, Except.map]
  simp [reviewCode, hcount]

/-- C7 witness data: one well-formed category followed by one whose
items list is missing. -/
def brokenChecklist : Checklist :=
  { categories :=
      [{ name := "good", items := some [] }, { name := "broken", items := none }] }

/-- C7 witness: the concrete run aborts with `MalformedChecklist`. -/
theorem malformed_category_witness :
    reviewCode (fun _ _ => false) emptyProject 0 1 initTracker brokenChecklist "python" =
      Except.error (ReviewError.malformedChecklist "broken") := by
  have h := malformed_category_aborts_review (fun _ _ => false) emptyProject 0 1
    initTracker "python" [{ name := "good", items := some [] }] []
    { name := "broken", items := none }
    (by
      intro x hx
      rcases List.mem_singleton.mp hx with rfl
      rfl)
    rfl
  exact h

/-- Helper: a list with an exposed cons cell in its tail is non-empty. -/
theorem isEmpty_append_cons {α : Type} (l t : List α) (a : α) :
    (l ++ a :: t).isEmpty = false := by
  cases l <;> rfl

/-- C5: during pattern validation, a scanned file that cannot be read
contributes exactly one failing result — severity forced to `error`, the
underlying message embedded — while the scans of the files before and
after it are kept: the exception is absorbed locally and the overall
result list is exactly the surrounding scans around that one error
result. -/
theorem unreadable_file_isolated_failure (m : Matcher) (project : Project)
    (check : Check) (ps : List String) (pre post : List FSFile) (f : FSFile)
    (e : String)
    (hp : check.patterns = some ps) (hps : ps ≠ [])
    (hfiles : getFilesToCheck project (getExtensions (check.technology.getD "python")) =
      pre ++ f :: post)
    (he : f.content = Except.error e) :
    patternValidate m project check =
      pre.flatMap (scanFile m check ps) ++
        ({ check_id := check.id, passed := false
           message := "Error reading file: " ++ e
           file_path := f.relPath, severity := "error" } ::
          post.flatMap (scanFile m check ps)) := by
  have hps1 : ps.isEmpty = false := by
    cases ps with
    | nil => exact absurd rfl hps
    | cons a l => rfl
  have hscan : scanFile m check ps f =
      [{ check_id := check.id, passed := false
         message := "Error reading file: " ++ e
         file_path := f.relPath, severity := "error" }] := by
    simp [scanFile, he]
  have hnil : (pre ++ f :: post).isEmpty = false := by
    cases pre <;> rfl
  simp only [patternValidate, hp, Option.getD_some, hps1, Bool.false_eq_true, if_false,
    hfiles, hnil]
  rw [List.flatMap_append, List.flatMap_cons, hscan]
  simp only [List.singleton_append, isEmpty_append_cons, Bool.false_eq_true, if_false]

/-- C5 witness data: an unreadable file followed by a readable one whose
second line matches the pattern. -/
def unreadableFile : FSFile :=
  { relPath := "bad.py", parts := ["bad.py"], content := Except.error "Permission denied" }

/-- C5 witness data: the readable neighbour file. -/
def readableFile : FSFile :=
  { relPath := "good.py", parts := ["good.py"], content := Except.ok "x = 1\neval(x)" }

/-- C5 witness data: a project whose python sources are the two files
above, in that order. -/
def mixedProject : Project :=
  { rglobP := fun p => if p = "*.py" then [unreadableFile, readableFile] else []
    existsAt := fun _ => false }

/-- C5 witness data: a pattern check (technology tag already injected). -/
def evalCheck : Check :=
  { id := "no-eval", description := "Avoid eval", patterns := some ["eval"]
    technology := some "python" }

/-- C5 witness data: a matcher matching the pattern only on the second
line of the readable file. -/
def evalMatcher : Matcher :=
  fun pat line => pat = "eval" && line = "eval(x)"

/-- C5 witness: the unreadable file yields its single `error` result and
the scan of the following file still happens. -/
theorem unreadable_file_witness :
    patternValidate evalMatcher mixedProject evalCheck =
      [{ check_id := "no-eval", passed := false
         message := "Error reading file: Permission denied"
         file_path := "bad.py", severity := "error" },
       { check_id := "no-eval", passed := false
         message := "Pattern match: Avoid eval"
         file_path := "good.py", line_number := 2, severity := "info" }] := by
  have h := unreadable_file_isolated_failure evalMatcher mixedProject evalCheck
    ["eval"] [] [readableFile] unreadableFile "Permission denied"
    rfl (by simp) rfl rfl
  rw [h]
  rfl

/-- C3: for a pattern check whose single scanned file reads successfully
and whose pattern `TODO` matches exactly the third physical line,
`PatternValidator.validate` returns exactly one result: failing, carrying
the file's project-relative path and the 1-based line number 3. -/
theorem pattern_match_line_three (m : Matcher) (project : Project) (check : Check)
    (f : FSFile) (content lineText : String)
    (hp : check.patterns = some ["TODO"])
    (hfiles : getFilesToCheck project (getExtensions (check.technology.getD "python")) = [f])
    (hc : f.content = Except.ok content)
    (hmatch : (splitLines content).enum.filter (fun pr => m "TODO" pr.2) = [(2, lineText)]) :
    patternValidate m project check =
      [{ check_id := check.id, passed := false
         message := "Pattern match: " ++ check.description
         file_path := f.relPath, line_number := 3
         severity := check.severity.getD "info" }] := by
  have hscan : scanFile m check ["TODO"] f =
      [{ check_id := check.id, passed := false
         message := "Pattern match: " ++ check.description
         file_path := f.relPath, line_number := 3
         severity := check.severity.getD "info" }] := by
    simp only [scanFile, hc, List.flatMap_cons, List.flatMap_nil, List.append_nil]
    rw [flatMap_if_eq_filter_map, hmatch]
    rfl
  simp only [patternValidate, hp, Option.getD_some, List.isEmpty_cons,
    Bool.false_eq_true, if_false, hfiles]
  rw [List.flatMap_cons, List.flatMap_nil, List.append_nil, hscan]
  rfl

/-- C3 witness data: a file whose third line holds the only match. -/
def todoFile : FSFile :=
  { relPath := "app.py", parts := ["app.py"], content := Except.ok "a\nb\nc TODO" }

/-- C3 witness data: the project containing only that file. -/
def todoProject : Project :=
  { rglobP := fun p => if p = "*.py" then [todoFile] else [], existsAt := fun _ => false }

/-- C3 witness data: the `TODO` pattern check, technology tag injected. -/
def todoCheck : Check :=
  { id := "no-todo", description := "No TODO comments", patterns := some ["TODO"]
    technology := some "python" }

/-- C3 witness data: a matcher matching `TODO` exactly on the third line's
text. -/
def todoMatcher : Matcher :=
  fun pat line => pat = "TODO" && line = "c TODO"

/-- C3 witness: the concrete run yields the single failing result at line
3 of `app.py`. -/
theorem pattern_match_line_three_witness :
    patternValidate todoMatcher todoProject todoCheck =
      [{ check_id := "no-todo", passed := false
         message := "Pattern match: No TODO comments"
         file_path := "app.py", line_number := 3, severity := "info" }] := by
  have h := pattern_match_line_three todoMatcher todoProject todoCheck todoFile
    "a\nb\nc TODO" "c TODO" rfl rfl rfl (by decide)
  rw [h]
  rfl

/-- C6: with patterns declared and a non-empty scanned file set, if every
file reads successfully and no pattern matches any line, the validator
returns exactly one passing result carrying the check's description — the
clean case — whereas an empty scanned file set returns the distinct single
passing `No files found to check` result. -/
theorem pattern_clean_single_pass (m : Matcher) (p1 p2 : Project) (check : Check)
    (ps : List String) (files1 : List FSFile)
    (hp : check.patterns = some ps) (hps : ps ≠ [])
    (h1 : getFilesToCheck p1 (getExtensions (check.technology.getD "python")) = files1)
    (hne : files1 ≠ [])
    (hclean : ∀ f ∈ files1, ∃ c, f.content = Except.ok c ∧
        ∀ pat ∈ ps, ∀ pr ∈ (splitLines c).enum, m pat pr.2 = false)
    (h2 : getFilesToCheck p2 (getExtensions (check.technology.getD "python")) = []) :
    patternValidate m p1 check =
      [{ check_id := check.id, passed := true, message := check.description }] ∧
    patternValidate m p2 check =
      [{ check_id := check.id, passed := true, message := "No files found to check" }] := by
  have hps1 : ps.isEmpty = false := by
    cases ps with
    | nil => exact absurd rfl hps
    | cons a l => rfl
  constructor
  · have hscan : ∀ f ∈ files1, scanFile m check ps f = [] := by
      intro f hf
      obtain ⟨c, hc, hno⟩ := hclean f hf
      simp only [scanFile, hc]
      apply List.flatMap_eq_nil_iff.mpr
      intro pat hpat
      rw [flatMap_if_eq_filter_map]
      have : (splitLines c).enum.filter (fun pr => m pat pr.2) = [] := by
        apply List.filter_eq_nil_iff.mpr
        intro pr hpr
        simp [hno pat hpat pr hpr]
      rw [this]
      rfl
    have hflat : files1.flatMap (scanFile m check ps) = [] :=
      List.flatMap_eq_nil_iff.mpr hscan
    have hne1 : files1.isEmpty = false := by
      cases files1 with
      | nil => exact absurd rfl hne
      | cons a l => rfl
    simp only [patternValidate, hp, Option.getD_some, hps1, Bool.false_eq_true, if_false,
      h1, hne1, hflat, List.isEmpty_nil, if_true]
  · simp only [patternValidate, hp, Option.getD_some, hps1, Bool.false_eq_true, if_false,
      h2, List.isEmpty_nil, if_true]

/-- C6 witness data: a readable file none of whose lines matches. -/
def cleanFile : FSFile :=
  { relPath := "m.py", parts := ["m.py"], content := Except.ok "x = 1\ny = 2" }

/-- C6 witness data: the project containing only the clean file. -/
def cleanProject : Project :=
  { rglobP := fun p => if p = "*.py" then [cleanFile] else [], existsAt := fun _ => false }

/-- C6 witness data: a pattern check for a token occurring nowhere. -/
def nonexistentTokenCheck : Check :=
  { id := "no-token", description := "No forbidden token"
    patterns := some ["NONEXISTENT_TOKEN"], technology := some "python" }

/-- C6 witness data: a matcher that never matches. -/
def neverMatcher : Matcher := fun _ _ => false

/-- C6 witness: the clean run yields the single description-passing
result, while the empty file set yields the distinct one. -/
theorem pattern_clean_single_pass_witness :
    patternValidate neverMatcher cleanProject nonexistentTokenCheck =
      [{ check_id := "no-token", passed := true, message := "No forbidden token" }] ∧
    patternValidate neverMatcher emptyProject nonexistentTokenCheck =
      [{ check_id := "no-token", passed := true, message := "No files found to check" }] := by
  have h := pattern_clean_single_pass neverMatcher cleanProject emptyProject
    nonexistentTokenCheck ["NONEXISTENT_TOKEN"] [cleanFile] rfl (by simp) rfl
    (by simp)
    (by
      intro f hf
      rcases List.mem_singleton.mp hf with rfl
      exact ⟨"x = 1\ny = 2", rfl, by decide⟩)
    rfl
  exact h

/-- The checks of a checklist in execution order, each paired with its
category name. -/
def flattenChecks (categories : List Category) : List (String × Check) :=
  categories.flatMap fun c => (c.items.getD []).map fun k => (c.name, k)

/-- Helper: a fold whose every step preserves `current_check` preserves
it overall. -/
theorem foldl_preserves_current_check {α : Type}
    (g : TrackerState → α → TrackerState)
    (h : ∀ s a, (g s a).current_check = s.current_check) :
    ∀ (l : List α) (s : TrackerState), (l.foldl g s).current_check = s.current_check := by
  intro l
  induction l with
  | nil => intro s; rfl
  | cons a t ih => intro s; rw [List.foldl_cons, ih, h]

/-- Helper: after processing one check, `current_check` holds that
check's id and description, whatever the validation outcome. -/
theorem processCheck_current_check (m : Matcher) (project : Project) (tech : String)
    (categoryName : String) (check : Check) (st : List Progress × TrackerState) :
    (processCheck m project tech categoryName check st).2.current_check =
      some { id := check.id, description := check.description } := by
  simp only [processCheck]
  cases hp : (executeCheck m project tech check).all fun r => r.passed
  · simp only [Bool.false_eq_true, if_false]
    rw [foldl_preserves_current_check]
    · rfl
    · intro s r
      cases hr : r.passed <;> simp [recordFail]
  · simp only [if_true]
    rfl

/-- Helper: the nested category/item loops equal a single fold over the
flattened check list. -/
theorem runChecks_eq_foldl_flatten (m : Matcher) (project : Project) (tech : String) :
    ∀ (cats : List Category) (st : List Progress × TrackerState),
    runChecks m project tech cats st =
      (flattenChecks cats).foldl
        (fun acc pr => processCheck m project tech pr.1 pr.2 acc) st := by
  intro cats
  induction cats with
  | nil => intro st; rfl
  | cons c t ih =>
      intro st
      have hstep : runChecks m project tech (c :: t) st =
          runChecks m project tech t
            ((c.items.getD []).foldl
              (fun acc2 check => processCheck m project tech c.name check acc2) st) := rfl
      rw [hstep, ih]
      rw [show flattenChecks (c :: t) =
        ((c.items.getD []).map fun k => (c.name, k)) ++ flattenChecks t from rfl]
      rw [List.foldl_append, List.foldl_map]

/-- Helper: a fold of `processCheck` over a non-empty flattened list
leaves `current_check` at the last check. -/
theorem foldl_processCheck_last (m : Matcher) (project : Project) (tech : String) :
    ∀ (l : List (String × Check)) (st : List Progress × TrackerState)
      (cn : String) (ck : Check),
    l.getLast? = some (cn, ck) →
    ((l.foldl (fun acc pr => processCheck m project tech pr.1 pr.2 acc) st).2.current_check =
      some { id := ck.id, description := ck.description }) := by
  intro l
  induction l with
  | nil =>
      intro st cn ck h
      simp at h
  | cons a t ih =>
      intro st cn ck h
      cases t with
      | nil =>
          simp only [List.getLast?_singleton, Option.some.injEq] at h
          subst h
          rw [List.foldl_cons, List.foldl_nil]
          exact processCheck_current_check m project tech cn ck st
      | cons b u =>
          rw [List.foldl_cons]
          exact ih _ cn ck (by rw [← List.getLast?_cons_cons]; exact h)

/-- Helper: when every category has an items list, the total count
succeeds. -/
theorem countTotal_isOk (cats : List Category)
    (h : ∀ c ∈ cats, c.items.isSome = true) :
    ∃ n, countTotal cats = Except.ok n := by
  induction cats with
  | nil => exact ⟨0, rfl⟩
  | cons c t ih =>
      obtain ⟨items, hi⟩ := Option.isSome_iff_exists.mp (h c (List.mem_cons_self c t))
      obtain ⟨n, hn⟩ := ih fun x hx => h x (List.mem_cons_of_mem c hx)
      exact ⟨items.length + n, by simp [countTotal, hi, hn, Except.map]⟩

/-- C10: neither `start` nor `complete` resets `current_check`; on a
well-formed checklist whose flattened check sequence ends with `ck`, the
final summary of `review_code` still carries `current_check = ck` (and
`in_progress = false`); and a restarted tracker therefore keeps showing
the previous review's last check until the next `update_check`. -/
theorem current_check_not_reset (m : Matcher) (project : Project) (tech : String)
    (t total t0 t1 : Nat) (s s0 : TrackerState) (checklist : Checklist)
    (cn : String) (ck : Check)
    (hitems : ∀ c ∈ checklist.categories, c.items.isSome = true)
    (hlast : (flattenChecks checklist.categories).getLast? = some (cn, ck)) :
    (startT t total s).current_check = s.current_check ∧
    (completeT t s).current_check = s.current_check ∧
    (reviewCode m project t0 t1 s0 checklist tech).map
        (fun r => (r.2.1.current_check, r.2.1.in_progress)) =
      Except.ok (some { id := ck.id, description := ck.description }, false) := by
  refine ⟨rfl, rfl, ?_⟩
  obtain ⟨n, hn⟩ := countTotal_isOk checklist.categories hitems
  have hcc := foldl_processCheck_last m project tech
    (flattenChecks checklist.categories) ([], startT t0 n s0) cn ck hlast
  simp only [reviewCode, hn, Except.map, runChecks_eq_foldl_flatten]
  rw [show (getSummary (completeT t1
      ((flattenChecks checklist.categories).foldl
        (fun acc pr => processCheck m project tech pr.1 pr.2 acc)
        ([], startT t0 n s0)).2)).current_check =
      ((flattenChecks checklist.categories).foldl
        (fun acc pr => processCheck m project tech pr.1 pr.2 acc)
        ([], startT t0 n s0)).2.current_check from rfl]
  rw [hcc]
  rfl

/-- C10 witness data: a placeholder check with neither patterns nor
files. -/
def placeholderCheck : Check := { id := "w1", description := "placeholder" }

/-- C10 witness data: the one-category checklist holding it. -/
def placeholderChecklist : Checklist :=
  { categories := [{ name := "basics", items := some [placeholderCheck] }] }

/-- C10 witness data: a tracker carrying a `current_check` left over from
an earlier review. -/
def staleTracker : TrackerState :=
  { initTracker with current_check := some { id := "old", description := "old check" }
                     end_time := some 3 }

/-- C10 witness: concrete instance of `current_check_not_reset`. -/
theorem current_check_not_reset_witness :
    (startT 7 4 staleTracker).current_check = staleTracker.current_check ∧
    (completeT 7 staleTracker).current_check = staleTracker.current_check ∧
    (reviewCode neverMatcher emptyProject 0 1 initTracker placeholderChecklist
        "python").map (fun r => (r.2.1.current_check, r.2.1.in_progress)) =
      Except.ok (some { id := "w1", description := "placeholder" }, false) := by
  have h := current_check_not_reset neverMatcher emptyProject "python" 7 4 0 1
    staleTracker initTracker placeholderChecklist "basics" placeholderCheck
    (by
      intro c hc
      rcases List.mem_singleton.mp hc with rfl
      rfl)
    rfl
  exact h

/-- C1 data: a single python file with the forbidden token on two lines. -/
def todoTwiceFile : FSFile :=
  { relPath := "a.py", parts := ["a.py"], content := Except.ok "TODO x\nTODO y" }

/-- C1 data: the project containing only that file. -/
def todoTwiceProject : Project :=
  { rglobP := fun p => if p = "*.py" then [todoTwiceFile] else []
    existsAt := fun _ => false }

/-- C1 data: a checklist with exactly one check, a `TODO` pattern scan. -/
def todoTwiceChecklist : Checklist :=
  { categories :=
      [{ name := "cat", items := some
          [{ id := "c1", description := "No TODO", patterns := some ["TODO"] }] }] }

/-- C1 data: a matcher matching the pattern on both lines of the file. -/
def todoTwiceMatcher : Matcher :=
  fun pat line => pat = "TODO" && (line = "TODO x" || line = "TODO y")

/-- C1: `review_code` calls `record_fail` once per failing
ValidationResult, not once per failed check, so on a checklist of one
check whose pattern matches two lines the final summary reports
`failed = 2` and `completed = 2` while `total = 1` — violating the
`completed ≤ total_checks` invariant (the `completed = passed + failed +
skipped` equality holds by construction of `get_progress`). -/
theorem completed_exceeds_total_checks :
    (reviewCode todoTwiceMatcher todoTwiceProject 0 1 initTracker todoTwiceChecklist
        "python").map
      (fun r => (r.2.1.total, r.2.1.passed, r.2.1.failed, r.2.1.skipped, r.2.1.completed)) =
      Except.ok (1, 0, 2, 0, 2) ∧ ¬ (2 ≤ 1) :=
  ⟨rfl, by decide⟩
